import Mathlib

/-!
# Verification of the wax stanza-filter engine

A shallow embedding of the core of the `wax` XMPP component-filter library,
translated from the Rust sources (`src/reject.rs`, `src/filter/service.rs`,
`src/correlation.rs`, `src/filters/stanza.rs`, `src/xmpp.rs`), together with
theorems settling the specification claims about the rejection model, error
stanza synthesis, request/response correlation, reply construction and IQ
narrowing.
-/

namespace Wax

/-! ## External stanza data model (xmpp-parsers interface types)

The stanza types come from the external `xmpp_parsers` / `tokio_xmpp` crates;
the spec treats them as opaque-to-core interface types.  We model JIDs as
strings and XML payload elements as an opaque tagged value which additionally
records a converted `StanzaError` (the `error.into()` conversion used when an
error payload is pushed onto a message or presence). -/

/-- A JID (bare or full), modelled as its string form. -/
abbrev Jid := String

/-- Model of `xmpp_parsers::stanza_error::ErrorType`: the four retry classes plus
`continue`, as in RFC 6120. -/
inductive ErrorType where
  | Auth
  | Cancel
  | Continue
  | Modify
  | Wait
  deriving DecidableEq

/-- Model of `xmpp_parsers::stanza_error::DefinedCondition`: the defined stanza error
conditions of RFC 6120.  `Gone` and `Redirect` carry an optional new
address. -/
inductive DefinedCondition where
  | BadRequest
  | Conflict
  | FeatureNotImplemented
  | Forbidden
  | Gone (new_address : Option String)
  | InternalServerError
  | ItemNotFound
  | JidMalformed
  | NotAcceptable
  | NotAllowed
  | NotAuthorized
  | PolicyViolation
  | RecipientUnavailable
  | Redirect (new_address : Option String)
  | RegistrationRequired
  | RemoteServerNotFound
  | RemoteServerTimeout
  | ResourceConstraint
  | ServiceUnavailable
  | SubscriptionRequired
  | UndefinedCondition
  | UnexpectedRequest
  deriving DecidableEq

/-- Model of `xmpp_parsers::stanza_error::StanzaError`, restricted to the fields the
core constructs through `StanzaError::new(type_, defined_condition, lang,
text)`. -/
structure StanzaError where
  type_ : ErrorType
  defined_condition : DefinedCondition
  lang : String
  text : String
  deriving DecidableEq

/-- Constructor `StanzaError::new`. -/
def StanzaError.new (type_ : ErrorType) (defined_condition : DefinedCondition)
    (lang : String) (text : String) : StanzaError :=
  { type_ := type_, defined_condition := defined_condition, lang := lang, text := text }

/-- A `minidom::Element` payload: opaque XML, except that converting a
`StanzaError` into a payload element (`error.into()`) is recorded so the
synthesized error payload remains observable. -/
inductive Element where
  | node (tag : Nat)
  | ofStanzaError (e : StanzaError)
  deriving DecidableEq

/-- Model of `xmpp_parsers::iq::Iq`: four variants.  Ids are mandatory; `Get`/`Set`
carry a mandatory payload, `Result`/`Error` an optional one, `Error` also a
`StanzaError`. -/
inductive Iq where
  | Get (from_ to_ : Option Jid) (id : String) (payload : Element)
  | Set (from_ to_ : Option Jid) (id : String) (payload : Element)
  | Result (from_ to_ : Option Jid) (id : String) (payload : Option Element)
  | Error (from_ to_ : Option Jid) (id : String) (error : StanzaError)
      (payload : Option Element)
  deriving DecidableEq

/-- The `(from, to, id)` destructuring of an IQ used throughout the source,
projected component-wise: the `from` attribute. -/
def Iq.from_ : Iq → Option Jid
  | .Get f _ _ _ => f
  | .Set f _ _ _ => f
  | .Result f _ _ _ => f
  | .Error f _ _ _ _ => f

/-- The `to` attribute of an IQ. -/
def Iq.to_ : Iq → Option Jid
  | .Get _ t _ _ => t
  | .Set _ t _ _ => t
  | .Result _ t _ _ => t
  | .Error _ t _ _ _ => t

/-- The (mandatory) `id` attribute of an IQ. -/
def Iq.idAttr : Iq → String
  | .Get _ _ i _ => i
  | .Set _ _ i _ => i
  | .Result _ _ i _ => i
  | .Error _ _ i _ _ => i

/-- Model of `xmpp_parsers::message::MessageType`. -/
inductive MessageType where
  | Chat
  | Error
  | Groupchat
  | Headline
  | Normal
  deriving DecidableEq

/-- Model of `xmpp_parsers::message::Message`, restricted to the fields the core reads
or writes: addressing, optional id, type, bodies (a language-keyed body map,
modelled as an association list) and payload elements. -/
structure Message where
  from_ : Option Jid
  to_ : Option Jid
  id : Option String
  type_ : MessageType
  bodies : List (String × String)
  payloads : List Element
  deriving DecidableEq

/-- Constructor `Message::new(to)`: a fresh chat message addressed to `to`. -/
def Message.new (to_ : Option Jid) : Message :=
  { from_ := none, to_ := to_, id := none, type_ := MessageType.Chat
    bodies := [], payloads := [] }

/-- Method `Message::with_body(lang, body)`: insert a body for the given language. -/
def Message.with_body (m : Message) (lang body : String) : Message :=
  { m with bodies := m.bodies ++ [(lang, body)] }

/-- Model of `xmpp_parsers::presence::Type`. -/
inductive PresenceType where
  | Error
  | None_
  | Probe
  | Subscribe
  | Subscribed
  | Unavailable
  | Unsubscribe
  | Unsubscribed
  deriving DecidableEq

/-- Model of `xmpp_parsers::presence::Presence`, restricted to the fields the core
reads or writes. -/
structure Presence where
  from_ : Option Jid
  to_ : Option Jid
  id : Option String
  type_ : PresenceType
  payloads : List Element
  deriving DecidableEq

/-- Constructor `Presence::new(type_)`: a fresh presence of the given type. -/
def Presence.new (type_ : PresenceType) : Presence :=
  { from_ := none, to_ := none, id := none, type_ := type_, payloads := [] }

/-- Model of `tokio_xmpp::Stanza`: the three top-level stanza kinds. -/
inductive Stanza where
  | Iq (iq : Iq)
  | Message (msg : Message)
  | Presence (pres : Presence)
  deriving DecidableEq

/-! ## Rejection model (`src/reject.rs`)

The 21 known causes are unit structs generated by the `unit_error!` macro;
we model the catalog as one enumeration `Known` (each unit struct carries no
data).  A custom cause is an opaque, type-tagged application value
(`Box<dyn Cause>`); we model it by an opaque tag. -/

/-- The `Known` enumeration of `reject.rs` (`enum_known!`): the fixed catalog
of known rejection causes. -/
inductive Known where
  | BadRequest
  | Conflict
  | FeatureNotImplemented
  | Forbidden
  | Gone
  | InternalServerError
  | ItemNotFound
  | JidMalformed
  | NotAcceptable
  | NotAllowed
  | NotAuthorized
  | RecipientUnavailable
  | Redirect
  | RegistrationRequired
  | RemoteServerNotFound
  | RemoteServerTimeout
  | ResourceConstraint
  | ServiceUnavailable
  | SubscriptionRequired
  | UndefinedCondition
  | UnexpectedRequest
  deriving DecidableEq

/-- The `Display` text of each known cause, as declared by the
`unit_error!` invocations in `reject.rs` (used for `e.to_string()` in
`into_stanza_error`). -/
def Known.text : Known → String
  | .BadRequest => "bad-request"
  | .Conflict => "conflict"
  | .FeatureNotImplemented => "feature-not-implemented"
  | .Forbidden => "forbidden"
  | .Gone => "gone"
  | .InternalServerError => "internal-server-error"
  | .ItemNotFound => "item-not-found"
  | .JidMalformed => "jid-malformed"
  | .NotAcceptable => "not-acceptable"
  | .NotAllowed => "not-allowed"
  | .NotAuthorized => "not-authorized"
  | .RecipientUnavailable => "recipient-unavailable"
  | .Redirect => "redirect"
  | .RegistrationRequired => "registration-required"
  | .RemoteServerNotFound => "remote-server-not-found"
  | .RemoteServerTimeout => "remote-server-timeout"
  | .ResourceConstraint => "resource-constraint"
  | .ServiceUnavailable => "service-unavailable"
  | .SubscriptionRequired => "subscription-required"
  | .UndefinedCondition => "undefined-condition"
  | .UnexpectedRequest => "unexpected-request"

/-- The inner `match *k` of the `Rejections::Known` branch of
`Rejections::error_condition` (reject.rs lines 333–355): the fixed mapping of
each known cause to its defined condition. -/
def Known.condition : Known → DefinedCondition
  | .BadRequest => .BadRequest
  | .Conflict => .Conflict
  | .FeatureNotImplemented => .FeatureNotImplemented
  | .Forbidden => .Forbidden
  | .Gone => .Gone none
  | .InternalServerError => .InternalServerError
  | .ItemNotFound => .ItemNotFound
  | .JidMalformed => .JidMalformed
  | .NotAcceptable => .NotAcceptable
  | .NotAllowed => .NotAllowed
  | .NotAuthorized => .NotAuthorized
  | .RecipientUnavailable => .RecipientUnavailable
  | .Redirect => .Redirect none
  | .RegistrationRequired => .RegistrationRequired
  | .RemoteServerNotFound => .RemoteServerNotFound
  | .RemoteServerTimeout => .RemoteServerTimeout
  | .ResourceConstraint => .ResourceConstraint
  | .ServiceUnavailable => .ServiceUnavailable
  | .SubscriptionRequired => .SubscriptionRequired
  | .UndefinedCondition => .UndefinedCondition
  | .UnexpectedRequest => .UnexpectedRequest

/-- The inner `match *k` of the `Rejections::Known` branch of
`Rejections::error_type` (reject.rs lines 363–393): the fixed mapping of each
known cause to its retry class. -/
def Known.errorType : Known → ErrorType
  | .NotAuthorized | .Forbidden | .RegistrationRequired
  | .SubscriptionRequired => .Auth
  | .Conflict | .FeatureNotImplemented | .Gone | .InternalServerError
  | .ItemNotFound | .NotAllowed | .RemoteServerNotFound => .Cancel
  | .BadRequest | .JidMalformed | .NotAcceptable | .Redirect => .Modify
  | .RecipientUnavailable | .RemoteServerTimeout | .ResourceConstraint
  | .ServiceUnavailable => .Wait
  | .UndefinedCondition | .UnexpectedRequest => .Cancel

/-- An opaque application-defined custom cause (`Box<dyn Cause>`), modelled
by a tag. -/
abbrev CustomCause := Nat

/-- The `Rejections` tree of `reject.rs`: a leaf is a known or a custom
cause; an interior node combines two trees (both branches of an `or`
failed). -/
inductive Rejections where
  | Known (k : Known)
  | Custom (c : CustomCause)
  | Combined (a b : Rejections)
  deriving DecidableEq

/-- The leaf-level cases of `Rejections::error_condition` (the `Known` and
`Custom` branches in reject.rs).  `Rejections::preferred` applies
`error_condition` only to its recursively resolved sides, which are always
leaves (`preferred_isLeaf` below); the `Combined` fallback here (descending
left) is never reached on such inputs and exists only to make the function
total. -/
def Rejections.leafCondition : Rejections → DefinedCondition
  | .Known k => k.condition
  | .Custom _ => .UndefinedCondition
  | .Combined a _ => a.leafCondition

/-- Function `Rejections::preferred` (reject.rs lines 446–463): recursively resolve
both sides of a combination, then compare their error conditions with the
priority: `ItemNotFound` is lowest (default rejection), otherwise prefer the
first one. -/
def Rejections.preferred : Rejections → Rejections
  | .Known k => .Known k
  | .Custom c => .Custom c
  | .Combined a b =>
    let pa := a.preferred
    let pb := b.preferred
    match pa.leafCondition, pb.leafCondition with
    | _, .ItemNotFound => pa
    | .ItemNotFound, _ => pb
    | _, _ => pa

/-- Function `Rejections::error_condition`: known and custom leaves map directly; a
combination delegates to its `preferred` resolution (whose value is a leaf,
so `leafCondition` computes its condition). -/
def Rejections.error_condition : Rejections → DefinedCondition
  | .Known k => k.condition
  | .Custom _ => .UndefinedCondition
  | .Combined a b => (Rejections.Combined a b).preferred.leafCondition

/-- The leaf-level cases of `Rejections::error_type`; as with
`leafCondition`, the `Combined` fallback is never reached when applied to a
`preferred` resolution. -/
def Rejections.leafType : Rejections → ErrorType
  | .Known k => k.errorType
  | .Custom _ => .Cancel
  | .Combined a _ => a.leafType

/-- Function `Rejections::error_type` (reject.rs lines 361–397): the retry class of
the rejection; a combination delegates to its `preferred` resolution. -/
def Rejections.error_type : Rejections → ErrorType
  | .Known k => k.errorType
  | .Custom _ => .Cancel
  | .Combined a b => (Rejections.Combined a b).preferred.leafType

/-- The leaf-level cases of `Rejections::into_stanza_error`.  The second
component records whether the `tracing::error!` call of the `Custom` branch
fired ("unhandled custom rejection, returning undefined-condition").  The
`Combined` fallback is never reached when applied to a `preferred`
resolution. -/
def Rejections.leafStanzaError : Rejections → StanzaError × Bool
  | .Known k =>
    (StanzaError.new (Rejections.Known k).error_type
      (Rejections.Known k).error_condition "en" k.text, false)
  | .Custom c =>
    (StanzaError.new ErrorType.Cancel DefinedCondition.UndefinedCondition "en"
      ("Unhandled rejection: " ++ toString c), true)
  | .Combined a _ => a.leafStanzaError

/-- Function `Rejections::into_stanza_error` (reject.rs lines 399–421): a known cause
becomes a stanza error with its mapped type/condition and display text; a
custom cause is logged as unhandled (second component `true`) and becomes
`undefined-condition`/`cancel`; a combination delegates to its `preferred`
resolution. -/
def Rejections.into_stanza_error : Rejections → StanzaError × Bool
  | .Known k =>
    (StanzaError.new (Rejections.Known k).error_type
      (Rejections.Known k).error_condition "en" k.text, false)
  | .Custom c =>
    (StanzaError.new ErrorType.Cancel DefinedCondition.UndefinedCondition "en"
      ("Unhandled rejection: " ++ toString c), true)
  | .Combined a b => (Rejections.Combined a b).preferred.leafStanzaError

/-- Function `Rejections::find` specialized to custom causes: visit combination nodes
recursively, left first, returning the first matching custom tag. -/
def Rejections.findCustom (t : CustomCause) : Rejections → Option CustomCause
  | .Known _ => none
  | .Custom c => if c = t then some c else none
  | .Combined a b => (a.findCustom t).orElse (fun _ => b.findCustom t)

/-- The `Reason` enum of `reject.rs`: the distinguished default
`ItemNotFound` leaf, or a tree of other causes. -/
inductive Reason where
  | ItemNotFound
  | Other (r : Rejections)
  deriving DecidableEq

/-- Type `Rejection`: rejection of a stanza by a filter. -/
structure Rejection where
  reason : Reason
  deriving DecidableEq

/-- Function `reject::item_not_found()`: the default rejection. -/
def item_not_found : Rejection := { reason := Reason.ItemNotFound }

/-- Function `reject::reject()`: same as `item_not_found()`. -/
def reject : Rejection := item_not_found

/-- Constructor `Rejection::known`. -/
def Rejection.known (k : Known) : Rejection :=
  { reason := Reason.Other (Rejections.Known k) }

/-- Function `reject::custom` / `Rejection::custom`. -/
def Rejection.custom (c : CustomCause) : Rejection :=
  { reason := Reason.Other (Rejections.Custom c) }

/-- Method `Rejection::is_item_not_found`. -/
def Rejection.is_item_not_found (r : Rejection) : Bool :=
  match r.reason with
  | Reason.ItemNotFound => true
  | Reason.Other _ => false

/-- Method `IsReject::error_condition` for `Rejection`. -/
def Rejection.error_condition (r : Rejection) : DefinedCondition :=
  match r.reason with
  | Reason.ItemNotFound => DefinedCondition.ItemNotFound
  | Reason.Other other => other.error_condition

/-- Method `IsReject::into_stanza_error` for `Rejection` (the `Bool` records whether
the unhandled-custom log fired, as in `Rejections.into_stanza_error`). -/
def Rejection.into_stanza_error (r : Rejection) : StanzaError × Bool :=
  match r.reason with
  | Reason.ItemNotFound =>
    (StanzaError.new ErrorType.Cancel DefinedCondition.ItemNotFound "en"
      "item-not-found", false)
  | Reason.Other other => other.into_stanza_error

/-- Method `CombineRejection<Rejection>::combine` for `Rejection` (reject.rs lines
639–653): both sides `Other` combine into a `Combined` node; an `ItemNotFound`
on either side is ignored in favour of the other side; two defaults stay the
default. -/
def Rejection.combine (self other : Rejection) : Rejection :=
  let reason :=
    match self.reason, other.reason with
    | Reason.Other left, Reason.Other right =>
      Reason.Other (Rejections.Combined left right)
    | Reason.Other o, Reason.ItemNotFound => Reason.Other o
    | Reason.ItemNotFound, Reason.Other o => Reason.Other o
    | Reason.ItemNotFound, Reason.ItemNotFound => Reason.ItemNotFound
  { reason := reason }

/-! ## Error stanza synthesis (`src/filter/service.rs`) -/

/-- Function `make_error_stanza` (service.rs lines 138–180): construct an error stanza
from the original stanza and a `StanzaError`.  An IQ always yields an
`Iq::Error` with swapped addressing and the same id; a message or presence
yields a reply only when the original is not itself error-typed and has an
id. -/
def make_error_stanza (original : Stanza) (error : StanzaError) : Option Stanza :=
  match original with
  | Stanza.Iq iq =>
    let f := iq.from_
    let t := iq.to_
    let i := iq.idAttr
    some (Stanza.Iq (Iq.Error t f i error none))
  | Stanza.Message msg =>
    if msg.type_ = MessageType.Error ∨ msg.id = none then
      none
    else
      let error_msg := Message.new msg.from_
      let error_msg := { error_msg with from_ := msg.to_ }
      let error_msg := { error_msg with id := msg.id }
      let error_msg := { error_msg with type_ := MessageType.Error }
      let error_msg :=
        { error_msg with payloads := error_msg.payloads ++ [Element.ofStanzaError error] }
      some (Stanza.Message error_msg)
  | Stanza.Presence pres =>
    if pres.type_ = PresenceType.Error ∨ pres.id = none then
      none
    else
      let error_pres := Presence.new PresenceType.Error
      let error_pres := { error_pres with from_ := pres.to_ }
      let error_pres := { error_pres with to_ := pres.from_ }
      let error_pres := { error_pres with id := pres.id }
      let error_pres :=
        { error_pres with payloads := error_pres.payloads ++ [Element.ofStanzaError error] }
      some (Stanza.Presence error_pres)

/-! ## Correlation context (`src/correlation.rs`)

The pending table is a `DashMap` from stanza id to the sender half of a
single-use oneshot channel; `DashMap::insert` replaces any existing entry,
`DashMap::remove` atomically removes and returns one.  We model the table as
a finite map (function to `Option`), a oneshot channel by a token drawn from
a fresh-token counter (`nextSender`), and the returned receiver by the same
token as its sender half. -/

/-- A oneshot sender/receiver pair, identified by its allocation token. -/
abbrev SenderToken := Nat

/-- Model of `CorrelationContext`, restricted to the pending table (the outbound
channel does not interact with the pending-table claims); `nextSender` models
the freshness of `oneshot::channel()` allocations. -/
structure CorrelationContext where
  pending : String → Option SenderToken
  nextSender : SenderToken

/-- Method `CorrelationContext::register` (correlation.rs lines 112–116): create a
fresh oneshot channel, insert its sender into the pending table under `id`
(replacing any existing entry, as `DashMap::insert` does), and return the
receiver (identified by the channel token). -/
def CorrelationContext.register (ctx : CorrelationContext) (id : String) :
    SenderToken × CorrelationContext :=
  let tx := ctx.nextSender
  (tx,
    { pending := fun k => if k = id then some tx else ctx.pending k
      nextSender := ctx.nextSender + 1 })

/-- Method `CorrelationContext::take_pending` (correlation.rs lines 119–121):
atomically remove the entry for `id`, returning its sender if present. -/
def CorrelationContext.take_pending (ctx : CorrelationContext) (id : String) :
    Option SenderToken × CorrelationContext :=
  match ctx.pending id with
  | some tx =>
    (some tx, { ctx with pending := fun k => if k = id then none else ctx.pending k })
  | none => (none, ctx)

/-- One pending-table operation: the two mutations any in-flight filter
evaluation can perform on the table. -/
inductive CorrOp where
  | register (id : String)
  | take (id : String)

/-- Run a sequence of pending-table operations, discarding their outputs. -/
def CorrelationContext.runOps (ctx : CorrelationContext) : List CorrOp → CorrelationContext
  | [] => ctx
  | CorrOp.register id :: rest => ((ctx.register id).2).runOps rest
  | CorrOp.take id :: rest => ((ctx.take_pending id).2).runOps rest

/-! ## Stanza filters and reply construction (`src/filters/stanza.rs`) -/

/-- The extraction closure of the `from()` filter (stanza.rs lines 54–68):
the `from` attribute of the current stanza, over all three stanza kinds. -/
def stanzaFrom : Stanza → Option Jid
  | Stanza.Message msg => msg.from_
  | Stanza.Iq iq => iq.from_
  | Stanza.Presence pres => pres.from_

/-- The extraction closure of the `to()` filter (stanza.rs lines 71–85). -/
def stanzaTo : Stanza → Option Jid
  | Stanza.Message msg => msg.to_
  | Stanza.Iq iq => iq.to_
  | Stanza.Presence pres => pres.to_

/-- Function `reply(body)` (stanza.rs lines 131–142), denotationally: the composed
filter `from().and(to()).map(...)` is infallible, and on the current stanza
extracts its `from` and `to` and builds the message
`Message::new(sender)` with `from` set to `recipient` and the body
attached under the default language (the empty string). -/
def reply (body : String) (stanza : Stanza) : Message :=
  let sender := stanzaFrom stanza
  let recipient := stanzaTo stanza
  let msg := Message.new sender
  let msg := { msg with from_ := recipient }
  msg.with_body "" body

/-! ## IQ narrowing (`src/xmpp.rs`, `src/filters/stanza/query.rs`) -/

/-- The narrowed get-shaped IQ (`xmpp::iq::Get`). -/
structure Get where
  from_ : Option Jid
  to_ : Option Jid
  payload : Element
  id : String
  deriving DecidableEq

/-- Function `Get::try_from_iq` (xmpp.rs lines 17–34): narrow a generic IQ to the
get shape, rejecting any other shape with `item_not_found`. -/
def Get.try_from_iq : Iq → Except Rejection Get
  | Iq.Get f t i p => Except.ok { from_ := f, to_ := t, payload := p, id := i }
  | _ => Except.error item_not_found

/-- The narrowed set-shaped IQ (`xmpp::iq::Set`). -/
structure Set where
  from_ : Option Jid
  to_ : Option Jid
  payload : Element
  id : String
  deriving DecidableEq

/-- Function `Set::try_from_iq` (xmpp.rs lines 46–63). -/
def Set.try_from_iq : Iq → Except Rejection Set
  | Iq.Set f t i p => Except.ok { from_ := f, to_ := t, payload := p, id := i }
  | _ => Except.error item_not_found

/-- A shared empty correlation context (no pending entries, fresh counter at
zero), used to instantiate the correlation theorems concretely. -/
def emptyCtx : CorrelationContext := { pending := fun _ => none, nextSender := 0 }

/-! ## Lemmas about `preferred` -/

/-- The two-column match of `Rejections::preferred`, rephrased as nested
conditionals on whether each side's condition is `ItemNotFound`. -/
theorem match_itemNotFound (x y : DefinedCondition) (pa pb : Rejections) :
    (match x, y with
     | _, DefinedCondition.ItemNotFound => pa
     | DefinedCondition.ItemNotFound, _ => pb
     | _, _ => pa) =
    if y = DefinedCondition.ItemNotFound then pa
    else if x = DefinedCondition.ItemNotFound then pb
    else pa := by
  cases x <;> cases y <;> simp

/-- Unfolding `preferred` on a combination node, in conditional form. -/
theorem preferred_combined_eq (a b : Rejections) :
    (Rejections.Combined a b).preferred =
      if b.preferred.leafCondition = DefinedCondition.ItemNotFound then a.preferred
      else if a.preferred.leafCondition = DefinedCondition.ItemNotFound then b.preferred
      else a.preferred := by
  simp only [Rejections.preferred]
  exact match_itemNotFound _ _ _ _

/-- Every `preferred` resolution is a leaf (a known or a custom cause). -/
theorem preferred_isLeaf (r : Rejections) :
    (∃ k, r.preferred = Rejections.Known k) ∨
    (∃ c, r.preferred = Rejections.Custom c) := by
  induction r with
  | Known k => exact Or.inl ⟨k, rfl⟩
  | Custom c => exact Or.inr ⟨c, rfl⟩
  | Combined a b iha ihb =>
    rw [preferred_combined_eq]
    split
    · exact iha
    · split
      · exact ihb
      · exact iha

/-- On the (leaf) value of `preferred`, the total-ized `leafCondition` agrees
with `error_condition`. -/
theorem leafCondition_preferred (r : Rejections) :
    r.preferred.leafCondition = r.preferred.error_condition := by
  rcases preferred_isLeaf r with ⟨k, h⟩ | ⟨c, h⟩ <;> rw [h] <;> rfl

/-- On the (leaf) value of `preferred`, `leafType` agrees with `error_type`. -/
theorem leafType_preferred (r : Rejections) :
    r.preferred.leafType = r.preferred.error_type := by
  rcases preferred_isLeaf r with ⟨k, h⟩ | ⟨c, h⟩ <;> rw [h] <;> rfl

/-- On the (leaf) value of `preferred`, `leafStanzaError` agrees with
`into_stanza_error`. -/
theorem leafStanzaError_preferred (r : Rejections) :
    r.preferred.leafStanzaError = r.preferred.into_stanza_error := by
  rcases preferred_isLeaf r with ⟨k, h⟩ | ⟨c, h⟩ <;> rw [h] <;> rfl

/-- The source-form recursion of `error_condition`: every rejection tree has
the error condition of its preferred resolution (reject.rs line 357). -/
theorem error_condition_eq_preferred (r : Rejections) :
    r.error_condition = r.preferred.error_condition := by
  cases r with
  | Known k => rfl
  | Custom c => rfl
  | Combined a b =>
    show (Rejections.Combined a b).preferred.leafCondition = _
    exact leafCondition_preferred (Rejections.Combined a b)

/-- The source-form recursion of `error_type` (reject.rs line 395). -/
theorem error_type_eq_preferred (r : Rejections) :
    r.error_type = r.preferred.error_type := by
  cases r with
  | Known k => rfl
  | Custom c => rfl
  | Combined a b =>
    show (Rejections.Combined a b).preferred.leafType = _
    exact leafType_preferred (Rejections.Combined a b)

/-- The source-form recursion of `into_stanza_error` (reject.rs line 419). -/
theorem into_stanza_error_eq_preferred (r : Rejections) :
    r.into_stanza_error = r.preferred.into_stanza_error := by
  cases r with
  | Known k => rfl
  | Custom c => rfl
  | Combined a b =>
    show (Rejections.Combined a b).preferred.leafStanzaError = _
    exact leafStanzaError_preferred (Rejections.Combined a b)

/-! ## Claim theorems -/

/-- C1: for all rejections `a` and `b` merged by `combine` (as when both
branches of an `or` fail): if both are the default item-not-found leaf the
result is the default leaf; if exactly one is the default leaf the result is
the other (non-default) one unchanged; if both are non-default the result is
a combination node retaining both. -/
theorem combine_priority_law (a b : Rejection) :
    (a.is_item_not_found = true → b.is_item_not_found = true →
      a.combine b = item_not_found)
    ∧ (a.is_item_not_found = true → b.is_item_not_found = false →
      a.combine b = b)
    ∧ (a.is_item_not_found = false → b.is_item_not_found = true →
      a.combine b = a)
    ∧ (∀ ra rb, a.reason = Reason.Other ra → b.reason = Reason.Other rb →
      a.combine b = { reason := Reason.Other (Rejections.Combined ra rb) }) := by
  obtain ⟨ra⟩ := a
  obtain ⟨rb⟩ := b
  cases ra <;> cases rb <;>
    simp [Rejection.combine, Rejection.is_item_not_found, item_not_found]

/-- Witness for C1: a default left combined with a non-default right yields
the right unchanged, and two non-default causes combine into a node
retaining both. -/
theorem combine_priority_law_witness :
    item_not_found.combine (Rejection.known Known.Forbidden) =
      Rejection.known Known.Forbidden
    ∧ (Rejection.known Known.Forbidden).combine (Rejection.custom 3) =
      { reason := Reason.Other (Rejections.Combined
          (Rejections.Known Known.Forbidden) (Rejections.Custom 3)) } := by
  constructor
  · exact (combine_priority_law item_not_found (Rejection.known Known.Forbidden)).2.1
      (by decide) (by decide)
  · exact (combine_priority_law (Rejection.known Known.Forbidden)
      (Rejection.custom 3)).2.2.2 _ _ rfl rfl

/-- C2: `preferred` on a combination node recursively unwraps it to a leaf
cause; a side whose resolved error condition is not item-not-found always
beats one whose condition is item-not-found; when both resolved sides are
non-default the first (left) one is returned. -/
theorem preferred_resolution (a b : Rejections) :
    ((∃ k, (Rejections.Combined a b).preferred = Rejections.Known k)
      ∨ (∃ c, (Rejections.Combined a b).preferred = Rejections.Custom c))
    ∧ (a.preferred.error_condition = DefinedCondition.ItemNotFound →
        b.preferred.error_condition ≠ DefinedCondition.ItemNotFound →
        (Rejections.Combined a b).preferred = b.preferred)
    ∧ (a.preferred.error_condition ≠ DefinedCondition.ItemNotFound →
        b.preferred.error_condition = DefinedCondition.ItemNotFound →
        (Rejections.Combined a b).preferred = a.preferred)
    ∧ (a.preferred.error_condition ≠ DefinedCondition.ItemNotFound →
        b.preferred.error_condition ≠ DefinedCondition.ItemNotFound →
        (Rejections.Combined a b).preferred = a.preferred) := by
  refine ⟨preferred_isLeaf (Rejections.Combined a b), ?_, ?_, ?_⟩ <;>
    intro ha hb <;>
    rw [preferred_combined_eq, leafCondition_preferred, leafCondition_preferred] <;>
    simp [ha, hb]

/-- Witness for C2: a default left side loses to a non-default right side,
and two non-default sides resolve to the left one. -/
theorem preferred_resolution_witness :
    (Rejections.Combined (Rejections.Known Known.ItemNotFound)
      (Rejections.Known Known.Forbidden)).preferred =
      Rejections.Known Known.Forbidden
    ∧ (Rejections.Combined (Rejections.Known Known.BadRequest)
      (Rejections.Known Known.Forbidden)).preferred =
      Rejections.Known Known.BadRequest := by
  constructor
  · exact (preferred_resolution (Rejections.Known Known.ItemNotFound)
      (Rejections.Known Known.Forbidden)).2.1 (by decide) (by decide)
  · exact (preferred_resolution (Rejections.Known Known.BadRequest)
      (Rejections.Known Known.Forbidden)).2.2.2 (by decide) (by decide)

/-- C3: for every original IQ stanza — whichever of the four variants it is —
and any stanza error, error-stanza synthesis produces some Error-typed IQ
whose `from` is the original's `to`, whose `to` is the original's `from`,
and whose id equals the original's id. -/
theorem iq_error_synthesis (i : Iq) (e : StanzaError) :
    make_error_stanza (Stanza.Iq i) e =
      some (Stanza.Iq (Iq.Error i.to_ i.from_ i.idAttr e none)) := by
  cases i <;> rfl

/-- C4: a rejected message or presence yields an error reply (error-typed,
swapped from/to, same id) exactly when the original is not itself of error
type and has an id; otherwise no reply is produced. -/
theorem message_presence_error_suppression (m : Message) (p : Presence)
    (e : StanzaError) :
    (make_error_stanza (Stanza.Message m) e =
      if m.type_ = MessageType.Error ∨ m.id = none then none
      else some (Stanza.Message
        { from_ := m.to_, to_ := m.from_, id := m.id,
          type_ := MessageType.Error, bodies := [],
          payloads := [Element.ofStanzaError e] }))
    ∧ (make_error_stanza (Stanza.Presence p) e =
      if p.type_ = PresenceType.Error ∨ p.id = none then none
      else some (Stanza.Presence
        { from_ := p.to_, to_ := p.from_, id := p.id,
          type_ := PresenceType.Error,
          payloads := [Element.ofStanzaError e] })) := by
  exact ⟨rfl, rfl⟩

/-- C5: every known cause maps to a fixed condition from the 21-entry
catalog and to exactly one of the four retry classes as listed; in
particular a Forbidden rejection on a message with id "42" yields an error
with condition forbidden and error type auth. -/
theorem known_cause_mapping :
    (∀ k : Known, (Rejections.Known k).error_type =
      (if k = Known.NotAuthorized ∨ k = Known.Forbidden ∨
          k = Known.RegistrationRequired ∨ k = Known.SubscriptionRequired then
        ErrorType.Auth
       else if k = Known.BadRequest ∨ k = Known.JidMalformed ∨
          k = Known.NotAcceptable ∨ k = Known.Redirect then ErrorType.Modify
       else if k = Known.RecipientUnavailable ∨ k = Known.RemoteServerTimeout ∨
          k = Known.ResourceConstraint ∨ k = Known.ServiceUnavailable then
        ErrorType.Wait
       else ErrorType.Cancel))
    ∧ (∀ k : Known, (Rejections.Known k).error_condition ∈
        [DefinedCondition.BadRequest, DefinedCondition.Conflict,
         DefinedCondition.FeatureNotImplemented, DefinedCondition.Forbidden,
         DefinedCondition.Gone none, DefinedCondition.InternalServerError,
         DefinedCondition.ItemNotFound, DefinedCondition.JidMalformed,
         DefinedCondition.NotAcceptable, DefinedCondition.NotAllowed,
         DefinedCondition.NotAuthorized, DefinedCondition.RecipientUnavailable,
         DefinedCondition.Redirect none, DefinedCondition.RegistrationRequired,
         DefinedCondition.RemoteServerNotFound, DefinedCondition.RemoteServerTimeout,
         DefinedCondition.ResourceConstraint, DefinedCondition.ServiceUnavailable,
         DefinedCondition.SubscriptionRequired, DefinedCondition.UndefinedCondition,
         DefinedCondition.UnexpectedRequest])
    ∧ ((((Rejection.known Known.Forbidden).into_stanza_error).1.defined_condition
          = DefinedCondition.Forbidden)
       ∧ (((Rejection.known Known.Forbidden).into_stanza_error).1.type_
          = ErrorType.Auth)
       ∧ make_error_stanza
          (Stanza.Message
            { from_ := some "alice@example.com",
              to_ := some "component.example.com", id := some "42",
              type_ := MessageType.Normal, bodies := [], payloads := [] })
          ((Rejection.known Known.Forbidden).into_stanza_error).1 =
        some (Stanza.Message
          { from_ := some "component.example.com",
            to_ := some "alice@example.com", id := some "42",
            type_ := MessageType.Error, bodies := [],
            payloads := [Element.ofStanzaError
              ((Rejection.known Known.Forbidden).into_stanza_error).1] })) := by
  refine ⟨fun k => by cases k <;> rfl, fun k => by cases k <;> simp [Rejections.error_condition, Known.condition], ?_⟩
  exact ⟨rfl, rfl, rfl⟩

/-- C6: resolving a rejection tree whose preferred cause is a custom
(application-defined) cause yields a stanza error with condition
undefined-condition and error type cancel, and the unhandled custom
rejection is logged. -/
theorem custom_preferred_undefined (r : Rejections) (c : CustomCause)
    (h : r.preferred = Rejections.Custom c) :
    (r.into_stanza_error).1.type_ = ErrorType.Cancel
    ∧ (r.into_stanza_error).1.defined_condition = DefinedCondition.UndefinedCondition
    ∧ (r.into_stanza_error).2 = true := by
  rw [into_stanza_error_eq_preferred, h]
  exact ⟨rfl, rfl, rfl⟩

/-- Witness for C6: a default-combined-with-custom tree resolves to the
custom cause, producing cancel/undefined-condition with the unhandled log
fired. -/
theorem custom_preferred_undefined_witness :
    ((Rejections.Combined (Rejections.Known Known.ItemNotFound)
        (Rejections.Custom 7)).into_stanza_error).1.type_ = ErrorType.Cancel
    ∧ ((Rejections.Combined (Rejections.Known Known.ItemNotFound)
        (Rejections.Custom 7)).into_stanza_error).1.defined_condition
      = DefinedCondition.UndefinedCondition
    ∧ ((Rejections.Combined (Rejections.Known Known.ItemNotFound)
        (Rejections.Custom 7)).into_stanza_error).2 = true :=
  custom_preferred_undefined
    (Rejections.Combined (Rejections.Known Known.ItemNotFound)
      (Rejections.Custom 7)) 7 rfl

/-- C7: after `register(id)`, a `take_pending` with that id returns the exact
sender that was registered; and after any successful `take_pending(id)`, a
second `take_pending` with the same id returns nothing (at-most-once
delivery). -/
theorem correlation_at_most_once (ctx : CorrelationContext) (id : String) :
    (((ctx.register id).2).take_pending id).1 = some (ctx.register id).1
    ∧ (∀ (c : CorrelationContext) (s : SenderToken),
        (c.take_pending id).1 = some s →
        (((c.take_pending id).2).take_pending id).1 = none) := by
  constructor
  · simp [CorrelationContext.register, CorrelationContext.take_pending]
  · intro c s h
    rcases hc : c.pending id with _ | tx
    · simp [CorrelationContext.take_pending, hc] at h
    · simp [CorrelationContext.take_pending, hc]

/-- Witness for C7: registering id "req-1" in the empty context, then taking
it, returns the registered sender; a second take for "req-1" returns
nothing. -/
theorem correlation_at_most_once_witness :
    (((emptyCtx.register "req-1").2).take_pending "req-1").1 =
      some (emptyCtx.register "req-1").1
    ∧ (((((emptyCtx.register "req-1").2).take_pending "req-1").2).take_pending
        "req-1").1 = none := by
  refine ⟨(correlation_at_most_once emptyCtx "req-1").1, ?_⟩
  exact (correlation_at_most_once emptyCtx "req-1").2
    ((emptyCtx.register "req-1").2) (emptyCtx.register "req-1").1
    (correlation_at_most_once emptyCtx "req-1").1

/-- C8: the message built by `reply(body)` has its `to` equal to the incoming
stanza's `from` and its `from` equal to the incoming stanza's `to`, for all
incoming stanzas — in particular when either address is absent the
corresponding address of the new message is absent too. -/
theorem reply_address_swap (body : String) (s : Stanza) :
    (reply body s).to_ = stanzaFrom s ∧ (reply body s).from_ = stanzaTo s :=
  ⟨rfl, rfl⟩

/-- C9: IQ narrowing to the get or set shape succeeds exactly when the
generic IQ has that shape, returning the narrowed value with the same from,
to, id and payload; any other IQ shape fails with an item-not-found
rejection. -/
theorem iq_narrowing (i : Iq) :
    (∀ f t id p, i = Iq.Get f t id p →
      Get.try_from_iq i = Except.ok { from_ := f, to_ := t, payload := p, id := id })
    ∧ ((∀ f t id p, i ≠ Iq.Get f t id p) →
      Get.try_from_iq i = Except.error item_not_found)
    ∧ (∀ f t id p, i = Iq.Set f t id p →
      Set.try_from_iq i = Except.ok { from_ := f, to_ := t, payload := p, id := id })
    ∧ ((∀ f t id p, i ≠ Iq.Set f t id p) →
      Set.try_from_iq i = Except.error item_not_found) := by
  refine ⟨?_, ?_, ?_, ?_⟩
  · rintro f t id p rfl; rfl
  · intro h
    cases i with
    | Get f t id p => exact absurd rfl (h f t id p)
    | Set f t id p => rfl
    | Result f t id p => rfl
    | Error f t id e p => rfl
  · rintro f t id p rfl; rfl
  · intro h
    cases i with
    | Set f t id p => exact absurd rfl (h f t id p)
    | Get f t id p => rfl
    | Result f t id p => rfl
    | Error f t id e p => rfl

/-- Witness for C9: a get-shaped IQ narrows to `Get` with the same fields,
and a result-shaped IQ fails get-narrowing with item-not-found. -/
theorem iq_narrowing_witness :
    Get.try_from_iq (Iq.Get (some "a@b") none "1" (Element.node 0)) =
      Except.ok { from_ := some "a@b", to_ := none,
                  payload := Element.node 0, id := "1" }
    ∧ Get.try_from_iq (Iq.Result none none "2" none) =
      Except.error item_not_found := by
  constructor
  · exact (iq_narrowing (Iq.Get (some "a@b") none "1" (Element.node 0))).1
      (some "a@b") none "1" (Element.node 0) rfl
  · exact (iq_narrowing (Iq.Result none none "2" none)).2.1
      (fun f t id p h => Iq.noConfusion h)

/-- A sender token that has left the table for good: it is older than every
token the fresh supply can still produce, and no id maps to it. -/
def CorrelationContext.banished (old : SenderToken) (ctx : CorrelationContext) : Prop :=
  old < ctx.nextSender ∧ ∀ k, ctx.pending k ≠ some old

/-- Operation `register` preserves banishment: the inserted sender is fresh, hence not
the banished one. -/
theorem banished_register (old : SenderToken) (ctx : CorrelationContext)
    (id : String) (h : ctx.banished old) :
    ((ctx.register id).2).banished old := by
  obtain ⟨hlt, hmap⟩ := h
  refine ⟨Nat.lt_succ_of_lt hlt, fun k => ?_⟩
  simp only [CorrelationContext.register]
  split
  · intro hc
    exact absurd (Option.some.inj hc) (Nat.ne_of_gt hlt)
  · exact hmap k

/-- Operation `take_pending` preserves banishment: it only removes entries. -/
theorem banished_take (old : SenderToken) (ctx : CorrelationContext)
    (id : String) (h : ctx.banished old) :
    ((ctx.take_pending id).2).banished old := by
  obtain ⟨hlt, hmap⟩ := h
  unfold CorrelationContext.take_pending
  rcases hp : ctx.pending id with _ | tx
  · exact ⟨hlt, hmap⟩
  · refine ⟨hlt, fun k => ?_⟩
    dsimp only
    split
    · exact fun hc => Option.noConfusion hc
    · exact hmap k

/-- Any sequence of register/take operations preserves banishment. -/
theorem banished_runOps (old : SenderToken) (ctx : CorrelationContext)
    (ops : List CorrOp) (h : ctx.banished old) :
    (ctx.runOps ops).banished old := by
  induction ops generalizing ctx with
  | nil => exact h
  | cons op rest ih =>
    cases op with
    | register id => exact ih _ (banished_register old ctx id h)
    | take id => exact ih _ (banished_take old ctx id h)

/-- The sender returned by `take_pending` comes from the pending table. -/
theorem take_pending_fst (ctx : CorrelationContext) (id : String) :
    (ctx.take_pending id).1 = ctx.pending id := by
  unfold CorrelationContext.take_pending
  rcases hp : ctx.pending id with _ | tx <;> rfl

/-- C10: calling `register(id)` when an entry for `id` is already pending
silently replaces it — the new sender differs from the old one, the table
maps `id` to the new sender only, the old sender is gone from the table
entirely, and after any further sequence of register/take operations no
`take_pending` ever returns the old sender, so the previously registered
waiter can never receive a response.  The two hypotheses are the reachable
state invariants of the table: every stored sender was drawn from the fresh
supply, and the old sender is stored under `id` only. -/
theorem register_replaces (ctx : CorrelationContext) (id : String)
    (old : SenderToken)
    (hold : ctx.pending id = some old)
    (hfresh : ∀ k s, ctx.pending k = some s → s < ctx.nextSender)
    (huniq : ∀ k, k ≠ id → ctx.pending k ≠ some old) :
    (ctx.register id).1 ≠ old
    ∧ ((ctx.register id).2).pending id = some (ctx.register id).1
    ∧ (∀ k, ((ctx.register id).2).pending k ≠ some old)
    ∧ (∀ (ops : List CorrOp) (k : String),
        ((((ctx.register id).2).runOps ops).take_pending k).1 ≠ some old) := by
  have hlt : old < ctx.nextSender := hfresh id old hold
  have hgone : ∀ k, ((ctx.register id).2).pending k ≠ some old := by
    intro k
    simp only [CorrelationContext.register]
    split
    · intro hc
      exact absurd (Option.some.inj hc) (Nat.ne_of_gt hlt)
    · next hk => exact huniq k hk
  have hban : ((ctx.register id).2).banished old :=
    ⟨Nat.lt_succ_of_lt hlt, hgone⟩
  refine ⟨(Nat.ne_of_gt hlt), ?_, hgone, ?_⟩
  · simp [CorrelationContext.register]
  · intro ops k
    rw [take_pending_fst]
    exact (banished_runOps old _ ops hban).2 k

/-- Witness for C10: in a context where "a" maps to sender 0, re-registering
"a" yields a different sender, and even after a further take of "a" the old
sender 0 is never returned. -/
theorem register_replaces_witness :
    (((emptyCtx.register "a").2).register "a").1 ≠ 0
    ∧ (((((((emptyCtx.register "a").2).register "a").2).runOps
        [CorrOp.take "a"]).take_pending "a").1 ≠ some 0) := by
  have hold : ((emptyCtx.register "a").2).pending "a" = some 0 := by
    simp [emptyCtx, CorrelationContext.register]
  have hfresh : ∀ k s, ((emptyCtx.register "a").2).pending k = some s →
      s < ((emptyCtx.register "a").2).nextSender := by
    intro k s h
    simp only [emptyCtx, CorrelationContext.register] at h ⊢
    split at h
    · cases h; exact Nat.zero_lt_one
    · exact Option.noConfusion h
  have huniq : ∀ k, k ≠ "a" →
      ((emptyCtx.register "a").2).pending k ≠ some 0 := by
    intro k hk
    simp [emptyCtx, CorrelationContext.register, hk]
  have h := register_replaces ((emptyCtx.register "a").2) "a" 0 hold hfresh huniq
  exact ⟨h.1, h.2.2.2 [CorrOp.take "a"] "a"⟩

end Wax
